import Mathlib

/-!
Shallow embedding of the document ingestion and retrieval pipeline of the
ai-interactive-podcast backend, covering
`src/backend/database/vector_store.py` and
`src/backend/services/document_processor.py`.

Modelling conventions:
* Python strings are Lean `String`; Python `len` on a string is `String.length`.
* The external Chroma collection is a list of stored records; one batch
  `collection.add` call either succeeds (colliding ids overwrite, per the
  documented store semantics) or raises an exception carrying a message
  string.  Exceptions are values of type `String` (the Python `str(e)`),
  which may be empty.
* Functions that talk to the external index also return the transcript of
  index calls they made (a count for `add`, call records for `query`/`get`),
  so that claims about "no call is made" or "one batch call" are statable.
* Python exceptions escaping a function are modelled with `Except` or with
  an explicit `raised` constructor in the result type; a function whose
  every failure path returns a value is modelled as a total Lean function.
-/

/-- Python `str.isspace`-relevant whitespace for `str.strip()`:
space, tab, newline, carriage return, vertical tab, form feed. -/
def pyIsSpace (c : Char) : Bool :=
  c = ' ' || c = '\t' || c = '\n' || c = '\r' || c = Char.ofNat 11 || c = Char.ofNat 12

/-- Python `str.strip()` on the underlying character list. -/
def pyStripList (l : List Char) : List Char :=
  ((l.dropWhile pyIsSpace).reverse.dropWhile pyIsSpace).reverse

/-- Python `str.strip()`. -/
def pyStrip (s : String) : String :=
  String.mk (pyStripList s.data)

/-- Python `source or "unknown"`: `None` and the empty string are falsy. -/
def pyOrElse (source : Option String) (d : String) : String :=
  match source with
  | none => d
  | some s => if s = "" then d else s

/-- Metadata attached to one stored chunk, mirroring the dict built in
`store_document_chunks` (vector_store.py lines 70-78). -/
structure Metadata where
  document_id : String
  chunk_index : Nat
  source : String
  timestamp : String
deriving Repr, DecidableEq

/-- One record in the Chroma collection: id, document text, metadata. -/
structure Record where
  id : String
  text : String
  metadata : Metadata
deriving Repr, DecidableEq

/-- Outcome of the external index's `collection.add` call: it either
succeeds or raises an exception whose `str` is `e`. -/
inductive AddOutcome where
  | ok : AddOutcome
  | raises (e : String) : AddOutcome
deriving Repr, DecidableEq

/-- Result dict of `store_document_chunks`: `error` is `none` exactly when
the key is absent (the success shape has no `error` key). -/
structure StoreResult where
  status : String
  chunks_stored : Nat
  error : Option String
deriving Repr, DecidableEq

/-- The parallel `ids`/`documents`/`metadatas` lists passed to
`collection.add` (vector_store.py lines 68-84), fused into one record list;
`i` is the running chunk index. -/
def buildRecords (document_id : String) (source : Option String) (ts : String) :
    Nat → List String → List Record
  | _, [] => []
  | i, c :: cs =>
      ⟨document_id ++ "_chunk_" ++ toString i, c,
        ⟨document_id, i, pyOrElse source "unknown", ts⟩⟩ ::
        buildRecords document_id source ts (i + 1) cs

/-- One successful batch `collection.add`: colliding ids are overwritten
silently (store semantics), new records land at the end in batch order. -/
def collectionAdd (store news : List Record) : List Record :=
  store.filter (fun old => news.all (fun r => old.id != r.id)) ++ news

/-- `store_document_chunks` (vector_store.py lines 32-100).
Inputs: document id, chunk texts, optional source, the clock reading
`datetime.utcnow().isoformat()` as `ts`, the external add outcome, and the
current index state.  Returns the result dict, the new index state, and the
number of `collection.add` calls made.  On an exception the store is left
as it was (no claim below depends on partial writes). -/
def store_document_chunks (document_id : String) (chunks : List String)
    (source : Option String) (ts : String) (outcome : AddOutcome)
    (store : List Record) : StoreResult × List Record × Nat :=
  if chunks.isEmpty then
    (⟨"success", 0, none⟩, store, 0)
  else
    match outcome with
    | AddOutcome.ok =>
        (⟨"success", chunks.length, none⟩,
          collectionAdd store (buildRecords document_id source (ts ++ "Z") 0 chunks), 1)
    | AddOutcome.raises e =>
        (⟨"failed", 0, some e⟩, store, 1)

/-- The `where={"document_id": {"$in": ids}}` call made by
`get_all_chunks_for_documents`. -/
structure GetCall where
  whereIn : List String
deriving Repr, DecidableEq

/-- `get_all_chunks_for_documents` (vector_store.py lines 147-168): empty
input short-circuits with no index call; otherwise one `collection.get`
filtered on `document_id ∈ document_ids`, returning the stored texts.
Also returns the transcript of `get` calls. -/
def get_all_chunks_for_documents (document_ids : List String)
    (store : List Record) : List String × List GetCall :=
  if document_ids.isEmpty then
    ([], [])
  else
    ((store.filter (fun r => document_ids.contains r.metadata.document_id)).map
        Record.text,
      [⟨document_ids⟩])

/-- The single `collection.query` call made by `search_documents`:
query texts, `n_results`, and the optional `$in` document filter
(`none` when no `where` filter was built). -/
structure QueryCall where
  query_texts : List String
  n_results : Int
  whereFilter : Option (List String)
deriving Repr, DecidableEq

/-- Raw reply of `collection.query`: lists of per-query rows. -/
structure QueryReply where
  documents : List (List String)
  ids : List (List String)
  metadatas : List (List Metadata)
deriving Repr, DecidableEq

/-- Shape returned by `search_documents`. -/
structure SearchResult where
  chunks : List String
  ids : List String
  metadatas : List Metadata
deriving Repr, DecidableEq

/-- `results['xs'][0] if results['xs'] else []` (vector_store.py 141-143). -/
def firstOrNil {α : Type} : List (List α) → List α
  | [] => []
  | xs :: _ => xs

/-- The `where_filter` construction of `search_documents` (vector_store.py
lines 130-132): built only when `document_ids` is truthy, so `None` and the
empty list both yield no filter. -/
def buildWhereFilter (document_ids : Option (List String)) : Option (List String) :=
  match document_ids with
  | none => none
  | some ids => if ids.isEmpty then none else some ids

/-- `search_documents` (vector_store.py lines 103-144), parameterized by the
external index's behaviour on a query call.  Returns the result dict and
the transcript of `collection.query` calls made. -/
def search_documents (query : String) (document_ids : Option (List String))
    (n_results : Int) (index : QueryCall → QueryReply) :
    SearchResult × List QueryCall :=
  let call : QueryCall := ⟨[query], n_results, buildWhereFilter document_ids⟩
  let reply := index call
  (⟨firstOrNil reply.documents, firstOrNil reply.ids, firstOrNil reply.metadatas⟩,
    [call])

/-- Input scenario of `extract_text_from_pdf` (document_processor.py lines
23-55): the file may be missing (`FileNotFoundError`), opening or the
extraction library may fail with some other exception, or reading succeeds
and `page.extract_text()` yields the given page texts in page order. -/
inductive PdfSource where
  | missing : PdfSource
  | readError (e : String) : PdfSource
  | pages (ps : List String) : PdfSource
deriving Repr, DecidableEq

/-- The extraction loop `text += page.extract_text() + "\n\n"`
(document_processor.py lines 40-44). -/
def joinPages (ps : List String) : String :=
  ps.foldl (fun acc p => acc ++ p ++ "\n\n") ""

/-- `extract_text_from_pdf` (document_processor.py lines 23-55): every
failure path returns `""` (the function never raises); on success the
accumulated text is returned stripped, and `""` when it strips to nothing. -/
def extract_text_from_pdf (src : PdfSource) : String :=
  match src with
  | PdfSource.missing => ""
  | PdfSource.readError _ => ""
  | PdfSource.pages ps =>
      let text := joinPages ps
      if pyStrip text = "" then "" else pyStrip text

/-- Modelled from the spec: "concatenates the extracted text of every page,
in page order, separated by a blank line between pages" (spec §4.1, also
claim C8's wording).  Used only to compare the code's result against the
spec's words. -/
def pagesJoinedByBlankLine : List String → String
  | [] => ""
  | [p] => p
  | p :: q :: rest => p ++ "\n\n" ++ pagesJoinedByBlankLine (q :: rest)

/-- `chunk_text` (document_processor.py lines 57-92).  The
`RecursiveCharacterTextSplitter` construction and `split_text` call are
external library code, modelled by the `splitter` oracle, which receives
`chunk_size` and `chunk_overlap` and may raise (e.g. on malformed
parameters).  The guard `if not text or not text.strip(): return []` runs
before the splitter is ever constructed. -/
def chunk_text (text : String) (chunk_size chunk_overlap : Int)
    (splitter : Int → Int → String → Except String (List String)) :
    Except String (List String) :=
  if text = "" then Except.ok []
  else if pyStrip text = "" then Except.ok []
  else splitter chunk_size chunk_overlap text

/-- Outcome of `process_document`: either a raised `ValueError` with its
message, or the returned `{chunks_count, status}` dict. -/
inductive ProcessResult where
  | raised (msg : String) : ProcessResult
  | ok (chunks_count : Nat) (status : String) : ProcessResult
deriving Repr, DecidableEq

/-- Python `dict.get(key, default)` on the optional `error` entry. -/
def pyGetD (o : Option String) (d : String) : String :=
  match o with
  | none => d
  | some s => s

/-- `process_document` (document_processor.py lines 94-143).  `fileName` is
`file_path.name` (passed to the store as `source`); `split` is the
splitting behaviour of the configured `RecursiveCharacterTextSplitter`
(chunking itself is external library code and is not assumed to fail
here); `ts` and `outcome` parameterize the store call as above.  Returns
the process outcome, the final index state, and the number of
`collection.add` calls made. -/
def process_document (document_id fileName : String) (src : PdfSource)
    (chunk_size chunk_overlap : Int) (split : Int → Int → String → List String)
    (ts : String) (outcome : AddOutcome) (store : List Record) :
    ProcessResult × List Record × Nat :=
  let text := extract_text_from_pdf src
  if text = "" ∨ text.length < 100 then
    (ProcessResult.raised "Document too short or empty", store, 0)
  else
    match chunk_text text chunk_size chunk_overlap
        (fun a b t => Except.ok (split a b t)) with
    | Except.error e => (ProcessResult.raised e, store, 0)
    | Except.ok chunks =>
        let r := store_document_chunks document_id chunks (some fileName) ts outcome store
        if r.1.status = "failed" then
          (ProcessResult.raised
              ("Failed to store document chunks: " ++ pyGetD r.1.error "Unknown error"),
            r.2.1, r.2.2)
        else
          (ProcessResult.ok r.1.chunks_stored r.1.status, r.2.1, r.2.2)

/-- Claim C6: with an empty chunks list, `store_document_chunks` returns
status "success" with `chunks_stored = 0` (and no `error` key), leaves the
index untouched, and makes no call to the underlying index, for every
document id, source, clock reading and index behaviour. -/
theorem C6_empty_chunks_trivial_success (document_id : String)
    (source : Option String) (ts : String) (outcome : AddOutcome)
    (store : List Record) :
    store_document_chunks document_id [] source ts outcome store =
      (⟨"success", 0, none⟩, store, 0) :=
  rfl

/-- Claim C10: `search_documents` with `document_ids = []` behaves exactly
like `search_documents` with no `document_ids`: the same result and the
same index call for every oracle, and the one query call it makes carries
no document restriction (filter `none`), so the similarity search ranges
over the whole store. -/
theorem C10_empty_ids_no_filter (query : String) (n_results : Int)
    (index : QueryCall → QueryReply) :
    search_documents query (some []) n_results index =
        search_documents query none n_results index ∧
      (search_documents query (some []) n_results index).2 =
        [⟨[query], n_results, none⟩] :=
  ⟨rfl, rfl⟩

/-- A list of whitespace characters strips to nothing. -/
theorem pyStripList_all_space {l : List Char} (h : ∀ c ∈ l, pyIsSpace c) :
    pyStripList l = [] := by
  unfold pyStripList
  rw [List.dropWhile_eq_nil_iff.mpr h]
  rfl

/-- A string of whitespace characters strips to the empty string. -/
theorem pyStrip_all_space {s : String} (h : ∀ c ∈ s.data, pyIsSpace c) :
    pyStrip s = "" := by
  unfold pyStrip
  rw [pyStripList_all_space h]

/-- Stripping absorbs a trailing double newline (character-list level). -/
theorem pyStripList_append_nn (l : List Char) :
    pyStripList (l ++ ['\n', '\n']) = pyStripList l := by
  unfold pyStripList
  rw [List.dropWhile_append]
  by_cases h : (l.dropWhile pyIsSpace).isEmpty
  · rw [if_pos h]
    rw [List.isEmpty_iff] at h
    rw [h]
    decide
  · rw [if_neg h]
    rw [List.reverse_append]
    show ((['\n', '\n'] ++ (l.dropWhile pyIsSpace).reverse).dropWhile pyIsSpace).reverse = _
    rw [List.dropWhile_append]
    have hnn : (['\n', '\n'].dropWhile pyIsSpace).isEmpty = true := by decide
    rw [if_pos hnn]

/-- Stripping absorbs a trailing double newline. -/
theorem pyStrip_append_nn (s : String) : pyStrip (s ++ "\n\n") = pyStrip s := by
  unfold pyStrip
  rw [String.data_append]
  show String.mk (pyStripList (s.data ++ ['\n', '\n'])) = _
  rw [pyStripList_append_nn]

/-- The extraction accumulator with arbitrary starting value. -/
theorem joinPages_foldl (ps : List String) (acc : String) :
    ps.foldl (fun a p => a ++ p ++ "\n\n") acc = acc ++ joinPages ps := by
  induction ps generalizing acc with
  | nil => simp [joinPages]
  | cons p rest ih =>
      have hL : (p :: rest).foldl (fun a q => a ++ q ++ "\n\n") acc =
          (acc ++ p ++ "\n\n") ++ joinPages rest := by
        show rest.foldl (fun a q => a ++ q ++ "\n\n") (acc ++ p ++ "\n\n") = _
        rw [ih]
      have hR : joinPages (p :: rest) = ("" ++ p ++ "\n\n") ++ joinPages rest := by
        show rest.foldl (fun a q => a ++ q ++ "\n\n") ("" ++ p ++ "\n\n") = _
        rw [ih]
      rw [hL, hR]
      simp [String.append_assoc]

/-- Peeling one page off the extraction accumulator. -/
theorem joinPages_cons (p : String) (rest : List String) :
    joinPages (p :: rest) = (p ++ "\n\n") ++ joinPages rest := by
  show rest.foldl (fun a q => a ++ q ++ "\n\n") ("" ++ p ++ "\n\n") = _
  rw [joinPages_foldl, String.empty_append]

/-- The extraction loop accumulates each page followed by a blank-line
separator; for a non-empty page list this is the spec's blank-line join
plus one trailing separator. -/
theorem joinPages_eq_spec_join (ps : List String) (h : ps ≠ []) :
    joinPages ps = pagesJoinedByBlankLine ps ++ "\n\n" := by
  induction ps with
  | nil => exact absurd rfl h
  | cons p rest ih =>
      cases rest with
      | nil =>
          rw [joinPages_cons]
          show (p ++ "\n\n") ++ joinPages [] = pagesJoinedByBlankLine [p] ++ "\n\n"
          rw [show joinPages [] = "" from rfl, String.append_empty]
          rfl
      | cons q rest2 =>
          rw [joinPages_cons, ih (by simp)]
          rw [show pagesJoinedByBlankLine (p :: q :: rest2) =
                p ++ "\n\n" ++ pagesJoinedByBlankLine (q :: rest2) from rfl]
          simp [String.append_assoc]

/-- On a readable source the extractor returns the stripped accumulated
text (both branches of the final `if` coincide). -/
theorem extract_pages_eq (ps : List String) :
    extract_text_from_pdf (PdfSource.pages ps) = pyStrip (joinPages ps) := by
  show (if pyStrip (joinPages ps) = "" then "" else pyStrip (joinPages ps)) = _
  by_cases h : pyStrip (joinPages ps) = ""
  · rw [if_pos h, h]
  · rw [if_neg h]

/-- Claim C9: for every text that is empty or consists only of whitespace,
`chunk_text` returns zero chunks and does not raise, whatever the
`chunk_size` and `chunk_overlap` parameters and whatever the splitter
library would do (it is never reached). -/
theorem C9_whitespace_empty_chunks (text : String) (chunk_size chunk_overlap : Int)
    (splitter : Int → Int → String → Except String (List String))
    (h : ∀ c ∈ text.data, pyIsSpace c) :
    chunk_text text chunk_size chunk_overlap splitter = Except.ok [] := by
  unfold chunk_text
  by_cases h0 : text = ""
  · rw [if_pos h0]
  · rw [if_neg h0, if_pos (pyStrip_all_space h)]

/-- Claim C9 witness: a whitespace-only text with negative parameters and a
splitter that would raise still yields zero chunks. -/
theorem C9_witness :
    chunk_text " \t\n" (-1) (-1) (fun _ _ _ => Except.error "boom") = Except.ok [] :=
  C9_whitespace_empty_chunks " \t\n" (-1) (-1) (fun _ _ _ => Except.error "boom")
    (by decide)

/-- Claim C8 counterexample: for the single page "a " (trailing space), the
code returns the stripped text "a", not the extracted page text "a " that
the claimed blank-line join of all pages would give: the final `strip()`
removes outer whitespace, so the result is not literally the pages joined
by blank lines. -/
theorem C8_counterexample :
    extract_text_from_pdf (PdfSource.pages ["a "]) = "a" ∧
    pagesJoinedByBlankLine ["a "] = "a " ∧
    ("a" : String) ≠ "a " := by
  refine ⟨by decide, rfl, by decide⟩

/-- Claim C8 (amended): `extract_text_from_pdf` never raises — a missing or
unopenable file or an extraction-library failure returns the empty string,
extraction yielding only whitespace returns the empty string, and otherwise
the result is the page texts in page order joined by blank-line separators
with leading and trailing whitespace stripped from the whole. -/
theorem C8_amended_extract_behavior :
    (extract_text_from_pdf PdfSource.missing = "") ∧
    (∀ e, extract_text_from_pdf (PdfSource.readError e) = "") ∧
    (∀ ps, (∀ c ∈ (joinPages ps).data, pyIsSpace c) →
      extract_text_from_pdf (PdfSource.pages ps) = "") ∧
    (∀ ps, ps ≠ [] →
      extract_text_from_pdf (PdfSource.pages ps) =
        pyStrip (pagesJoinedByBlankLine ps)) := by
  refine ⟨rfl, fun e => rfl, fun ps h => ?_, fun ps h => ?_⟩
  · rw [extract_pages_eq, pyStrip_all_space h]
  · rw [extract_pages_eq, joinPages_eq_spec_join ps h, pyStrip_append_nn]

/-- Claim C8 witness: the amended extraction contract evaluated on concrete
sources. -/
theorem C8_witness :
    extract_text_from_pdf (PdfSource.pages ["ab", "cd"]) =
        pyStrip (pagesJoinedByBlankLine ["ab", "cd"]) ∧
    extract_text_from_pdf (PdfSource.pages [" \t"]) = "" ∧
    extract_text_from_pdf (PdfSource.readError "io error") = "" := by
  have h := C8_amended_extract_behavior
  exact ⟨h.2.2.2 ["ab", "cd"] (by decide), h.2.2.1 [" \t"] (by decide),
    h.2.1 "io error"⟩

/-- Every record built for a batch carries the owning document id. -/
theorem buildRecords_docid (document_id : String) (source : Option String)
    (ts : String) :
    ∀ (i : Nat) (chunks : List String),
      ∀ r ∈ buildRecords document_id source ts i chunks,
        r.metadata.document_id = document_id := by
  intro i chunks
  induction chunks generalizing i with
  | nil => intro r hr; cases hr
  | cons c cs ih =>
      intro r hr
      cases hr with
      | head => rfl
      | tail _ hr2 => exact ih (i + 1) r hr2

/-- The batch stores exactly the chunk texts, in order. -/
theorem buildRecords_texts (document_id : String) (source : Option String)
    (ts : String) :
    ∀ (i : Nat) (chunks : List String),
      (buildRecords document_id source ts i chunks).map Record.text = chunks := by
  intro i chunks
  induction chunks generalizing i with
  | nil => rfl
  | cons c cs ih =>
      show c :: (buildRecords document_id source ts (i + 1) cs).map Record.text = c :: cs
      rw [ih (i + 1)]

/-- Element `j` of a batch built from running index `i` is chunk `j` with
composite id and chunk index `i + j`. -/
theorem buildRecords_get (document_id : String) (source : Option String)
    (ts : String) :
    ∀ (chunks : List String) (i j : Nat),
      (buildRecords document_id source ts i chunks)[j]? =
        (chunks[j]?).map (fun c =>
          ⟨document_id ++ "_chunk_" ++ toString (i + j), c,
            ⟨document_id, i + j, pyOrElse source "unknown", ts⟩⟩) := by
  intro chunks
  induction chunks with
  | nil => intro i j; simp [buildRecords]
  | cons c cs ih =>
      intro i j
      cases j with
      | zero => simp [buildRecords]
      | succ j =>
          have hidx : i + (j + 1) = (i + 1) + j := by omega
          simp only [buildRecords, List.getElem?_cons_succ]
          rw [ih (i + 1) j, hidx]

/-- Unfolding `store_document_chunks` on a non-empty chunk list with a
successful index call. -/
theorem store_ok_eq (document_id : String) (chunks : List String)
    (source : Option String) (ts : String) (store : List Record)
    (h : chunks ≠ []) :
    store_document_chunks document_id chunks source ts AddOutcome.ok store =
      (⟨"success", chunks.length, none⟩,
        collectionAdd store (buildRecords document_id source (ts ++ "Z") 0 chunks),
        1) := by
  unfold store_document_chunks
  rw [if_neg (by simpa [List.isEmpty_iff] using h)]

/-- Unfolding `store_document_chunks` on a non-empty chunk list when the
index raises. -/
theorem store_raises_eq (document_id : String) (chunks : List String)
    (source : Option String) (ts e : String) (store : List Record)
    (h : chunks ≠ []) :
    store_document_chunks document_id chunks source ts (AddOutcome.raises e) store =
      (⟨"failed", 0, some e⟩, store, 1) := by
  unfold store_document_chunks
  rw [if_neg (by simpa [List.isEmpty_iff] using h)]

/-- After a successful insert, the chunks retrievable for a document the
store did not previously contain are exactly the inserted batch. -/
theorem get_all_after_insert (document_id : String) (chunks : List String)
    (source : Option String) (ts : String) (store : List Record)
    (hne : chunks ≠ [])
    (hstore : ∀ r ∈ store, r.metadata.document_id ≠ document_id) :
    (get_all_chunks_for_documents [document_id]
        ((store_document_chunks document_id chunks source ts
            AddOutcome.ok store).2.1)).1 = chunks := by
  rw [store_ok_eq document_id chunks source ts store hne]
  show ((collectionAdd store
      (buildRecords document_id source (ts ++ "Z") 0 chunks)).filter
        (fun r => [document_id].contains r.metadata.document_id)).map Record.text = chunks
  unfold collectionAdd
  rw [List.filter_append]
  have h1 : (store.filter (fun old =>
      (buildRecords document_id source (ts ++ "Z") 0 chunks).all
        (fun r => old.id != r.id))).filter
      (fun r => [document_id].contains r.metadata.document_id) = [] := by
    rw [List.filter_eq_nil_iff]
    intro r hr
    have hr2 : r ∈ store := List.mem_of_mem_filter hr
    have hne2 := hstore r hr2
    simp [List.contains, hne2]
  have h2 : (buildRecords document_id source (ts ++ "Z") 0 chunks).filter
      (fun r => [document_id].contains r.metadata.document_id) =
      buildRecords document_id source (ts ++ "Z") 0 chunks := by
    rw [List.filter_eq_self]
    intro r hr
    have := buildRecords_docid document_id source (ts ++ "Z") 0 chunks r hr
    simp [List.contains, this]
  rw [h1, h2, List.nil_append, buildRecords_texts]

/-- Claim C3: starting from a store holding no chunks for document `d`,
inserting a non-empty chunk sequence `C` and then fetching all chunks for
`[d]` yields exactly `len(C)` entries whose text values, as a set, equal
the set of `C` (here the stronger fact holds: the very list `C` comes
back, in order). -/
theorem C3_insert_get_all_roundtrip (document_id : String) (chunks : List String)
    (source : Option String) (ts : String) (store : List Record)
    (hne : chunks ≠ [])
    (hstore : ∀ r ∈ store, r.metadata.document_id ≠ document_id) :
    ((get_all_chunks_for_documents [document_id]
        ((store_document_chunks document_id chunks source ts
            AddOutcome.ok store).2.1)).1).length = chunks.length ∧
    (∀ t, t ∈ (get_all_chunks_for_documents [document_id]
        ((store_document_chunks document_id chunks source ts
            AddOutcome.ok store).2.1)).1 ↔ t ∈ chunks) := by
  rw [get_all_after_insert document_id chunks source ts store hne hstore]
  exact ⟨rfl, fun t => Iff.rfl⟩

/-- Claim C3 witness: inserting two chunks for a fresh document id into an
empty store and reading them back. -/
theorem C3_witness :
    ((get_all_chunks_for_documents ["d"]
        ((store_document_chunks "d" ["x", "y"] none "t" AddOutcome.ok []).2.1)).1).length = 2 ∧
    "x" ∈ (get_all_chunks_for_documents ["d"]
        ((store_document_chunks "d" ["x", "y"] none "t" AddOutcome.ok []).2.1)).1 := by
  have h := C3_insert_get_all_roundtrip "d" ["x", "y"] none "t" []
    (by decide) (by intro r hr; cases hr)
  exact ⟨h.1, (h.2 "x").mpr (by decide)⟩

/-- Claim C4 counterexample: an empty string in the chunks argument is
written to the index verbatim — `store_document_chunks` does not reject or
skip it, so after this call the store contains a chunk whose text is the
empty string, contrary to the claimed defensive filtering. -/
theorem C4_counterexample :
    ((store_document_chunks "d" [""] none "t" AddOutcome.ok []).2.1).map
        Record.text = [""] :=
  rfl

/-- Claim C4 (amended): the store's insert path performs no filtering of
empty strings: starting from an empty store, a successful
`store_document_chunks` call leaves the store holding exactly the given
chunk texts, empty strings included — only the Chunker's own behaviour
keeps empty chunks out of the pipeline. -/
theorem C4_amended_no_empty_filter (document_id : String) (chunks : List String)
    (source : Option String) (ts : String) :
    ((store_document_chunks document_id chunks source ts
        AddOutcome.ok []).2.1).map Record.text = chunks := by
  cases hc : chunks with
  | nil => rfl
  | cons c cs =>
      rw [store_ok_eq document_id (c :: cs) source ts [] (by simp)]
      show ((collectionAdd []
          (buildRecords document_id source (ts ++ "Z") 0 (c :: cs))).map Record.text) = c :: cs
      unfold collectionAdd
      rw [show (([] : List Record).filter (fun old =>
          (buildRecords document_id source (ts ++ "Z") 0 (c :: cs)).all
            (fun r => old.id != r.id))) = [] from rfl]
      rw [List.nil_append, buildRecords_texts]

/-- Claim C5 counterexample: with a present but empty source name, the
stored metadata carries "unknown", not the given source name "".  The code
evaluates the Python expression `source or "unknown"`, whose falsy branch
also fires on the empty string, so "source equal to the given source name
or unknown when absent" fails at this input. -/
theorem C5_counterexample :
    ((store_document_chunks "d" ["x"] (some "") "t" AddOutcome.ok []).2.1).map
        (fun r => r.metadata.source) = ["unknown"] :=
  rfl

/-- Claim C5 (amended): for every non-empty chunk list, the store makes one
batch call to the index, the clock reading gains a trailing "Z", and
(starting from an empty store, which isolates the written batch) the record
at position `j` has id `{document_id}_chunk_{j}` and metadata holding the
document id, chunk index `j`, the given source name when it is present and
non-empty — "unknown" when absent or empty — and the suffixed timestamp. -/
theorem C5_amended_batch_metadata (document_id : String) (chunks : List String)
    (source : Option String) (ts : String) (h : chunks ≠ []) :
    ((store_document_chunks document_id chunks source ts AddOutcome.ok []).2.2 = 1) ∧
    (∃ l, (ts ++ "Z").data = l ++ ['Z']) ∧
    (∀ (j : Nat), ((store_document_chunks document_id chunks source ts
        AddOutcome.ok []).2.1)[j]? =
      (chunks[j]?).map (fun c =>
        ⟨document_id ++ "_chunk_" ++ toString j, c,
          ⟨document_id, j,
            (match source with
              | none => "unknown"
              | some s => if s = "" then "unknown" else s),
            ts ++ "Z"⟩⟩)) := by
  refine ⟨?_, ⟨ts.data, by rw [String.data_append]⟩, ?_⟩
  · rw [store_ok_eq document_id chunks source ts [] h]
  · intro (j : Nat)
    rw [store_ok_eq document_id chunks source ts [] h]
    show (collectionAdd [] (buildRecords document_id source (ts ++ "Z") 0 chunks))[j]? = _
    unfold collectionAdd
    rw [show (([] : List Record).filter (fun old =>
        (buildRecords document_id source (ts ++ "Z") 0 chunks).all
          (fun r => old.id != r.id))) = [] from rfl]
    rw [List.nil_append]
    rw [buildRecords_get document_id source (ts ++ "Z") chunks 0 j]
    rw [show (0 : Nat) + j = j from by omega]
    rfl

/-- Claim C5 witness: the amended batch shape at a concrete call. -/
theorem C5_witness :
    ((store_document_chunks "d" ["x"] (some "s.pdf") "2024-01-01T00:00:00"
        AddOutcome.ok []).2.2 = 1) ∧
    ((store_document_chunks "d" ["x"] (some "s.pdf") "2024-01-01T00:00:00"
        AddOutcome.ok []).2.1)[0]? =
      some ⟨"d_chunk_0", "x",
        ⟨"d", 0, "s.pdf", "2024-01-01T00:00:00Z"⟩⟩ := by
  have h := C5_amended_batch_metadata "d" ["x"] (some "s.pdf")
    "2024-01-01T00:00:00" (by decide)
  refine ⟨h.1, ?_⟩
  rw [h.2.2 0]
  decide

/-- Claim C1 counterexample: if the underlying index raises an exception
whose message is the empty string, the returned `error` is the empty
string — "a non-empty error string" fails, since the code stores the raw
`str(e)`. -/
theorem C1_counterexample :
    (store_document_chunks "d" ["x"] none "t" (AddOutcome.raises "") []).1 =
      ⟨"failed", 0, some ""⟩ :=
  rfl

/-- `chunk_text` with a non-raising splitter always returns `Except.ok`. -/
theorem chunk_text_ok (text : String) (chunk_size chunk_overlap : Int)
    (split : Int → Int → String → List String) :
    ∃ chunks, chunk_text text chunk_size chunk_overlap
        (fun a b t => Except.ok (split a b t)) = Except.ok chunks := by
  unfold chunk_text
  by_cases h0 : text = ""
  · exact ⟨[], by rw [if_pos h0]⟩
  · by_cases h1 : pyStrip text = ""
    · exact ⟨[], by rw [if_neg h0, if_pos h1]⟩
    · exact ⟨split chunk_size chunk_overlap text, by rw [if_neg h0, if_neg h1]⟩

/-- Claim C1 (amended): for every non-empty chunk list, an index exception
during insert makes `store_document_chunks` return status "failed",
`chunks_stored = 0` and an error string equal to the exception's message
(non-empty whenever that message is non-empty), without propagating the
exception (the call returns a structured result and leaves the store as it
was); and `process_document`, receiving such a failed result on a document
that passed the length gate and chunked into a non-empty list, raises a
`ValueError` carrying the store's error message. -/
theorem C1_amended_storage_failure (document_id : String) (chunks : List String)
    (source : Option String) (ts e : String) (store : List Record)
    (h : chunks ≠ []) :
    ((store_document_chunks document_id chunks source ts
        (AddOutcome.raises e) store).1 = ⟨"failed", 0, some e⟩) ∧
    ((store_document_chunks document_id chunks source ts
        (AddOutcome.raises e) store).2.1 = store) ∧
    (∀ (fileName : String) (src : PdfSource) (cs co : Int)
        (split : Int → Int → String → List String),
      ¬(extract_text_from_pdf src = "" ∨ (extract_text_from_pdf src).length < 100) →
      chunk_text (extract_text_from_pdf src) cs co
          (fun a b t => Except.ok (split a b t)) ≠ Except.ok [] →
      (process_document document_id fileName src cs co split ts
          (AddOutcome.raises e) store).1 =
        ProcessResult.raised ("Failed to store document chunks: " ++ e)) := by
  refine ⟨?_, ?_, ?_⟩
  · rw [store_raises_eq document_id chunks source ts e store h]
  · rw [store_raises_eq document_id chunks source ts e store h]
  · intro fileName src cs co split hlong hnonempty
    unfold process_document
    rw [if_neg hlong]
    obtain ⟨produced, hprod⟩ := chunk_text_ok (extract_text_from_pdf src) cs co split
    rw [hprod]
    have hpne : produced ≠ [] := by
      intro hnil
      exact hnonempty (by rw [hprod, hnil])
    simp only [store_raises_eq document_id produced (some fileName) ts e store hpne]
    rfl

/-- Claim C1 witness: amended storage-failure shape at a concrete call, and
the resulting `ValueError` from `process_document` on a 100-character
document. -/
theorem C1_witness :
    ((store_document_chunks "d" ["x"] none "t" (AddOutcome.raises "boom") []).1 =
      ⟨"failed", 0, some "boom"⟩) ∧
    ((process_document "d" "f.pdf"
        (PdfSource.pages [String.mk (List.replicate 100 'a')]) 1000 200
        (fun _ _ t => [t]) "t" (AddOutcome.raises "boom") []).1 =
      ProcessResult.raised ("Failed to store document chunks: " ++ "boom")) := by
  have h := C1_amended_storage_failure "d" ["x"] none "t" "boom" [] (by decide)
  refine ⟨h.1, h.2.2 "f.pdf" (PdfSource.pages [String.mk (List.replicate 100 'a')])
    1000 200 (fun _ _ t => [t]) (by decide) ?_⟩
  intro hcontra
  have hval : chunk_text
      (extract_text_from_pdf (PdfSource.pages [String.mk (List.replicate 100 'a')]))
      1000 200 (fun a b t => Except.ok ((fun _ _ t => [t]) a b t)) =
      Except.ok [extract_text_from_pdf
        (PdfSource.pages [String.mk (List.replicate 100 'a')])] := by
    unfold chunk_text
    rw [if_neg (by decide), if_neg (by decide)]
  rw [hval] at hcontra
  exact List.cons_ne_nil _ _ (Except.ok.inj hcontra)

/-- The storage-failure message can never collide with the too-short
message: their lengths differ. -/
theorem storeFailMsg_ne (e : String) :
    ("Failed to store document chunks: " ++ e) ≠ "Document too short or empty" := by
  intro hcontra
  have hlen := congrArg String.length hcontra
  rw [String.length_append] at hlen
  have h1 : ("Failed to store document chunks: " : String).length = 33 := rfl
  have h2 : ("Document too short or empty" : String).length = 27 := rfl
  rw [h1, h2] at hlen
  omega

/-- Claim C2: `process_document` raises the `DocumentTooShort` ValueError
("Document too short or empty") exactly when the extracted text is empty or
shorter than 100 characters — text of length 100 or more proceeds past the
gate — and in that case it returns with the store untouched and zero calls
made to the index's insert path. -/
theorem C2_document_too_short (document_id fileName : String) (src : PdfSource)
    (chunk_size chunk_overlap : Int) (split : Int → Int → String → List String)
    (ts : String) (outcome : AddOutcome) (store : List Record) :
    ((process_document document_id fileName src chunk_size chunk_overlap split
        ts outcome store).1 = ProcessResult.raised "Document too short or empty" ↔
      (extract_text_from_pdf src = "" ∨ (extract_text_from_pdf src).length < 100)) ∧
    ((extract_text_from_pdf src = "" ∨ (extract_text_from_pdf src).length < 100) →
      (process_document document_id fileName src chunk_size chunk_overlap split
          ts outcome store).2.1 = store ∧
      (process_document document_id fileName src chunk_size chunk_overlap split
          ts outcome store).2.2 = 0) := by
  by_cases hshort : extract_text_from_pdf src = "" ∨
      (extract_text_from_pdf src).length < 100
  · constructor
    · constructor
      · intro _; exact hshort
      · intro _
        unfold process_document
        rw [if_pos hshort]
    · intro _
      unfold process_document
      rw [if_pos hshort]
      exact ⟨rfl, rfl⟩
  · constructor
    · constructor
      · intro hmsg
        exfalso
        unfold process_document at hmsg
        rw [if_neg hshort] at hmsg
        obtain ⟨produced, hprod⟩ :=
          chunk_text_ok (extract_text_from_pdf src) chunk_size chunk_overlap split
        rw [hprod] at hmsg
        by_cases hfail : (store_document_chunks document_id produced (some fileName)
            ts outcome store).1.status = "failed"
        · simp only [if_pos hfail] at hmsg
          exact storeFailMsg_ne _ (ProcessResult.raised.injEq _ _ ▸ hmsg)
        · simp only [if_neg hfail] at hmsg
          cases hmsg
      · intro hcond; exact absurd hcond hshort
    · intro hcond; exact absurd hcond hshort

/-- Claim C2 witness: a two-character document trips the length gate,
leaves the store unchanged and makes no index call. -/
theorem C2_witness :
    ((process_document "d" "f.pdf" (PdfSource.pages ["ab"]) 1000 200
        (fun _ _ t => [t]) "t" AddOutcome.ok []).1 =
      ProcessResult.raised "Document too short or empty") ∧
    ((process_document "d" "f.pdf" (PdfSource.pages ["ab"]) 1000 200
        (fun _ _ t => [t]) "t" AddOutcome.ok []).2.1 = []) ∧
    ((process_document "d" "f.pdf" (PdfSource.pages ["ab"]) 1000 200
        (fun _ _ t => [t]) "t" AddOutcome.ok []).2.2 = 0) := by
  have h := C2_document_too_short "d" "f.pdf" (PdfSource.pages ["ab"]) 1000 200
    (fun _ _ t => [t]) "t" AddOutcome.ok []
  have hcond : extract_text_from_pdf (PdfSource.pages ["ab"]) = "" ∨
      (extract_text_from_pdf (PdfSource.pages ["ab"])).length < 100 := by
    right; decide
  exact ⟨h.1.mpr hcond, (h.2 hcond).1, (h.2 hcond).2⟩

/-- Claim C7 counterexample: a call with empty query text and
`n_results = 0` is not rejected — `search_documents` forwards exactly this
call to the underlying index, so no `InvalidInput` validation exists on
this path. -/
theorem C7_counterexample :
    (search_documents "" none 0 (fun _ => ⟨[], [], []⟩)).2 = [⟨[""], 0, none⟩] :=
  rfl

/-- Claim C7 (amended): the retrieval facade performs no parameter
validation at all: `search_documents` forwards the query text and
`n_results` to the underlying index unchanged — empty query text and
non-positive `n_results` included — adding no logic beyond building the
optional document filter and unwrapping the first result row, and
`get_all_chunks_for_documents` only short-circuits an empty document-id
list (one `get` call otherwise, with the ids passed through). -/
theorem C7_amended_no_validation (query : String)
    (document_ids : Option (List String)) (n_results : Int)
    (index : QueryCall → QueryReply) (ids : List String) (store : List Record) :
    ((search_documents query document_ids n_results index).2 =
        [⟨[query], n_results, buildWhereFilter document_ids⟩]) ∧
    ((search_documents query document_ids n_results index).1 =
      ⟨firstOrNil (index ⟨[query], n_results, buildWhereFilter document_ids⟩).documents,
        firstOrNil (index ⟨[query], n_results, buildWhereFilter document_ids⟩).ids,
        firstOrNil (index ⟨[query], n_results, buildWhereFilter document_ids⟩).metadatas⟩) ∧
    ((get_all_chunks_for_documents ids store).2 =
      if ids.isEmpty then [] else [⟨ids⟩]) := by
  refine ⟨rfl, rfl, ?_⟩
  unfold get_all_chunks_for_documents
  by_cases h : ids.isEmpty
  · rw [if_pos h, if_pos h]
  · rw [if_neg h, if_neg h]
